import Mathlib

/-!
Shallow embedding of the client-side search/filter/listing pipeline of the
P2P-share front end: the `SearchPage` component (its address-change effect,
`fetchItems`, `handleSearch`, `handleFilterSubmit`, the advanced-panel reset
button) and the `ItemCard` renderer.

Query strings are modelled as the ordered key/value pair lists held by a
`URLSearchParams` object: `append` adds a pair at the end and `get` returns
the first value recorded for a key, or null (read back as the empty string
through `|| ""` in the source). Serialising such a pair list with
`URLSearchParams.toString` and parsing it back percent-encode and decode the
pairs bijectively, so the pair-list level is the faithful abstraction of the
wire form. Missing (undefined) object fields and empty strings are equally
falsy in every guard of the source, so both are modelled as `""`. Numbers
coming from the backend payload are modelled as rationals.
-/

/-- A query string as the ordered key/value pairs of a `URLSearchParams`. -/
abbrev Params := List (String × String)

/-- `params.get(k)`: the first value recorded for key `k`, if any. -/
def getParam (ps : Params) (k : String) : Option String :=
  (ps.find? (fun p => p.1 == k)).map (fun p => p.2)

/-- `params.get(k) || ""`: a missing parameter reads back as `""`. -/
def getParamOr (ps : Params) (k : String) : String :=
  (getParam ps k).getD ""

/-- The item summary rendered by `ItemCard`, with the field names of the
backend payload. -/
structure ItemSummary where
  id : String
  titre : String
  descr : String
  categorie : String
  canton : String
  ville : String
  prix_par_jour : ℚ
  note_moyenne : ℚ
  proprietaire_nom : String
  frais_inscription : ℚ
  images : List String
deriving Repr, DecidableEq

/-- The component state of `SearchPage`: the result collection, the loading
flag, the four filter edit buffers and the advanced-panel visibility flag. -/
structure SearchState where
  items : List ItemSummary
  loading : Bool
  searchQuery : String
  selectedCanton : String
  selectedCategory : String
  maxPrice : String
  showFilters : Bool
deriving Repr, DecidableEq

/-- The `filters` argument of `fetchItems`; a field that the caller leaves
out (undefined) is modelled as the empty string, which is equally falsy in
the guards of `fetchItems`. -/
structure Filters where
  q : String := ""
  canton : String := ""
  categorie : String := ""
  prix_max : String := ""
deriving Repr, DecidableEq

/-- The query parameters built inside `fetchItems`: each of the four fields
is appended, under its fixed name, only when it is truthy (non-empty). -/
def fetchParams (f : Filters) : Params :=
  (if f.q ≠ "" then [("q", f.q)] else []) ++
  (if f.canton ≠ "" then [("canton", f.canton)] else []) ++
  (if f.categorie ≠ "" then [("categorie", f.categorie)] else []) ++
  (if f.prix_max ≠ "" then [("prix_max", f.prix_max)] else [])

/-- The observable steps of one `fetchItems` call, in order. -/
inductive FetchEvent where
  | setLoading (b : Bool)
  | request (ps : Params)
  | setItems (items : List ItemSummary)
  | logError
deriving Repr, DecidableEq

/-- The ordered steps of one `fetchItems` call as a function of the backend
response: set loading true, issue the request, on success replace the items
wholesale, on failure only log, and in the `finally` step clear loading. -/
def fetchTrace (f : Filters) (resp : Except String (List ItemSummary)) :
    List FetchEvent :=
  [FetchEvent.setLoading true, FetchEvent.request (fetchParams f)] ++
  (match resp with
   | Except.ok its => [FetchEvent.setItems its]
   | Except.error _ => [FetchEvent.logError]) ++
  [FetchEvent.setLoading false]

/-- Effect of one step on the component state; issuing the request and
logging touch no component state. -/
def applyEvent (s : SearchState) (e : FetchEvent) : SearchState :=
  match e with
  | FetchEvent.setLoading b => { s with loading := b }
  | FetchEvent.request _ => s
  | FetchEvent.setItems its => { s with items := its }
  | FetchEvent.logError => s

/-- The component state after one `fetchItems` call settles with response
`resp`. -/
def runFetch (s : SearchState) (f : Filters)
    (resp : Except String (List ItemSummary)) : SearchState :=
  (fetchTrace f resp).foldl applyEvent s

/-- The outward actions a handler can request besides updating state. -/
inductive Effect where
  | navigate (path : String) (ps : Params)
  | fetch (f : Filters)
deriving Repr, DecidableEq

/-- The query string built by `handleSearch` from the free-text, canton and
category buffers (each appended only when non-empty). -/
def searchParams (s : SearchState) : Params :=
  (if s.searchQuery ≠ "" then [("q", s.searchQuery)] else []) ++
  (if s.selectedCanton ≠ "" then [("canton", s.selectedCanton)] else []) ++
  (if s.selectedCategory ≠ "" then [("categorie", s.selectedCategory)] else [])

/-- `handleSearch`: leave the component state alone and navigate to the
search address with the query string built from the buffers. -/
def handleSearch (s : SearchState) : SearchState × List Effect :=
  (s, [Effect.navigate "/search" (searchParams s)])

/-- `handleFilterSubmit`: fetch directly with all four buffers under the
fixed backend names, then close the advanced panel. -/
def handleFilterSubmit (s : SearchState) : SearchState × List Effect :=
  ({ s with showFilters := false },
   [Effect.fetch { q := s.searchQuery, canton := s.selectedCanton,
                   categorie := s.selectedCategory, prix_max := s.maxPrice }])

/-- The reset button of the advanced panel: clear the category and max-price
buffers, close the panel, request nothing else. -/
def resetClick (s : SearchState) : SearchState × List Effect :=
  ({ s with selectedCategory := "", maxPrice := "", showFilters := false }, [])

/-- The filters handed to `fetchItems` by the address-change effect: the
object literal at its call site has no `prix_max` entry at all. -/
def addressFilters (search : Params) : Filters :=
  { q := getParamOr search "q", canton := getParamOr search "canton",
    categorie := getParamOr search "categorie", prix_max := "" }

/-- The `useEffect` reacting to `location.search`: re-seed the free-text,
canton and category buffers from the address and fetch; the max-price buffer
is not touched. -/
def addressChangeEffect (s : SearchState) (search : Params) :
    SearchState × List Effect :=
  ({ s with searchQuery := getParamOr search "q",
            selectedCanton := getParamOr search "canton",
            selectedCategory := getParamOr search "categorie" },
   [Effect.fetch (addressFilters search)])

/-- The onChange handler of the free-text input: write the buffer, nothing
else. -/
def onSearchQueryChange (s : SearchState) (v : String) :
    SearchState × List Effect :=
  ({ s with searchQuery := v }, [])

/-- The onChange handler of the canton select. -/
def onCantonChange (s : SearchState) (v : String) :
    SearchState × List Effect :=
  ({ s with selectedCanton := v }, [])

/-- The onChange handler of the category select. -/
def onCategoryChange (s : SearchState) (v : String) :
    SearchState × List Effect :=
  ({ s with selectedCategory := v }, [])

/-- The onChange handler of the max-price input. -/
def onMaxPriceChange (s : SearchState) (v : String) :
    SearchState × List Effect :=
  ({ s with maxPrice := v }, [])

/-- The FilterSet of the Query State Model, with the field names used by the
specification; an absent optional field is the empty string. -/
structure FilterSet where
  freeText : String := ""
  region : String := ""
  category : String := ""
  maxPricePerDay : String := ""
deriving Repr, DecidableEq

/-- Encoding a FilterSet into a query string, as realised by `handleSearch`:
`q`, `canton`, `categorie` are emitted for the non-empty fields and nothing
is ever emitted for `maxPricePerDay`. -/
def encodeFilterSet (f : FilterSet) : Params :=
  searchParams { items := [], loading := false, searchQuery := f.freeText,
                 selectedCanton := f.region, selectedCategory := f.category,
                 maxPrice := f.maxPricePerDay, showFilters := false }

/-- Decoding a query string into a FilterSet, as realised by the reads of the
address-change effect: only `q`, `canton` and `categorie` are recognised, so
`maxPricePerDay` always comes back empty. -/
def decodeFilterSet (ps : Params) : FilterSet :=
  { freeText := getParamOr ps "q", region := getParamOr ps "canton",
    category := getParamOr ps "categorie", maxPricePerDay := "" }

/-- The fixed field naming used when a FilterSet is handed to the Listing
Fetcher, as in `handleFilterSubmit`: freeText to `q`, region to `canton`,
category to `categorie`, maxPricePerDay to `prix_max`. -/
def FilterSet.toFilters (f : FilterSet) : Filters :=
  { q := f.freeText, canton := f.region, categorie := f.category,
    prix_max := f.maxPricePerDay }

/-- The backend base address taken from configuration (modelled by its
default value; no claim depends on it). -/
def API_BASE_URL : String := "http://localhost:8001"

/-- What the image region of an item card renders. -/
inductive ImageView where
  | img (src : String) (alt : String)
  | placeholder (text : String)
deriving Repr, DecidableEq

/-- `titre.charAt(0).toUpperCase()`: the empty string for an empty title,
otherwise the uppercased first character. -/
def charAt0Upper (s : String) : String :=
  match s.data with
  | [] => ""
  | c :: _ => String.mk [c.toUpper]

/-- The image region of `ItemCard`: the first image when the image list is
non-empty, otherwise the title-initial placeholder. -/
def renderItemImage (item : ItemSummary) : ImageView :=
  match item.images with
  | src :: _ => ImageView.img (API_BASE_URL ++ src) item.titre
  | [] => ImageView.placeholder (charAt0Upper item.titre)

/-- `toFixed(1)` for the non-negative ratings that occur: round to the
nearest tenth and print one integer part and one decimal digit. -/
def toFixed1 (q : ℚ) : String :=
  let n : Int := (q * 10 + 1 / 2).floor
  toString (n / 10) ++ "." ++ toString (n % 10)

/-- The rating span of `ItemCard`: the rating to one decimal place when it is
positive, the unrated label otherwise. -/
def renderRating (r : ℚ) : String :=
  if 0 < r then toFixed1 r else "Nouveau"

/-- A concrete item with no images, for witnesses. -/
def sampleItemNoImages : ItemSummary :=
  { id := "1", titre := "velo", descr := "velo de ville", categorie := "Sport",
    canton := "Vaud", ville := "Lausanne", prix_par_jour := 25,
    note_moyenne := 0, proprietaire_nom := "Anna", frais_inscription := 5,
    images := [] }

/-- A concrete component state with every buffer populated, for concrete
counterexamples and witnesses. -/
def sampleState : SearchState :=
  { items := [], loading := false, searchQuery := "velo",
    selectedCanton := "Vaud", selectedCategory := "Sport",
    maxPrice := "50", showFilters := true }

/-- Reading a key that heads the parameter list returns its value. -/
lemma getParamOr_cons_self (k v : String) (ps : Params) :
    getParamOr ((k, v) :: ps) k = v := by
  simp [getParamOr, getParam, List.find?_cons_of_pos]

/-- Reading a key skips pairs recorded under a different key. -/
lemma getParamOr_cons_ne (k q v : String) (ps : Params) (h : k ≠ q) :
    getParamOr ((k, v) :: ps) q = getParamOr ps q := by
  simp [getParamOr, getParam, List.find?_cons_of_neg, h]

/-- C1 (amended): for every FilterSet whose maxPricePerDay field is empty,
decoding the query string produced by encoding it yields the same FilterSet.
The encoder emits nothing for maxPricePerDay and the decoder never reads it,
so the round trip holds exactly on the three fields freeText, region and
category. -/
theorem c1_roundtrip (f : FilterSet) (h : f.maxPricePerDay = "") :
    decodeFilterSet (encodeFilterSet f) = f := by
  obtain ⟨ft, rg, ct, mp⟩ := f
  simp only at h
  subst h
  by_cases h1 : ft = "" <;> by_cases h2 : rg = "" <;> by_cases h3 : ct = "" <;>
    simp [decodeFilterSet, encodeFilterSet, searchParams, h1, h2, h3,
      getParamOr_cons_self, getParamOr_cons_ne, getParamOr, getParam]

/-- C1 counterexample: the FilterSet whose only populated field is
maxPricePerDay does not survive the encode/decode round trip, refuting the
four-field round-trip law as stated. -/
theorem c1_counterexample :
    decodeFilterSet (encodeFilterSet
      { freeText := "", region := "", category := "", maxPricePerDay := "50" }) ≠
    { freeText := "", region := "", category := "", maxPricePerDay := "50" } := by
  decide

/-- C1 witness: the amended round trip evaluated at a concrete FilterSet with
freeText, region and category populated. -/
theorem c1_roundtrip_witness :
    decodeFilterSet (encodeFilterSet
      { freeText := "velo", region := "Vaud", category := "Sport",
        maxPricePerDay := "" }) =
    { freeText := "velo", region := "Vaud", category := "Sport",
      maxPricePerDay := "" } :=
  c1_roundtrip _ rfl

/-- C2 counterexample: with a populated category buffer, the query string
built by the primary search submission does contain a category parameter,
refuting the claim that it is built from the free-text and region buffers
only. -/
theorem c2_counterexample :
    ("categorie", "Sport") ∈ searchParams sampleState ∧
    (handleSearch sampleState).2 =
      [Effect.navigate "/search" (searchParams sampleState)] := by
  constructor
  · decide
  · rfl

/-- C2 (amended): for every state of the edit buffers, the primary search
submission leaves the state unchanged and requests exactly one effect, a
navigation to the search address whose query string holds exactly the
non-empty values of the freeText, region and category buffers; no
maxPricePerDay parameter ever appears and no fetch is requested. -/
theorem c2_primary_submit (s : SearchState) :
    (handleSearch s).1 = s ∧
    (handleSearch s).2 = [Effect.navigate "/search" (searchParams s)] ∧
    searchParams s = List.filter (fun p => p.2 != "")
      [("q", s.searchQuery), ("canton", s.selectedCanton),
       ("categorie", s.selectedCategory)] ∧
    (∀ kv ∈ searchParams s, kv.1 ≠ "prix_max") ∧
    (∀ f, Effect.fetch f ∉ (handleSearch s).2) := by
  refine ⟨rfl, rfl, ?_, ?_, ?_⟩
  · by_cases h1 : s.searchQuery = "" <;> by_cases h2 : s.selectedCanton = "" <;>
      by_cases h3 : s.selectedCategory = "" <;>
      simp [searchParams, h1, h2, h3, List.filter_cons, bne_iff_ne]
  · intro kv hkv
    simp only [searchParams, List.mem_append] at hkv
    rcases hkv with (h | h) | h <;> split at h <;> simp_all
  · intro f hf
    simp [handleSearch] at hf

/-- C3 counterexample: after an address change to an empty query string, the
max-price buffer still holds its previous non-empty value, refuting the claim
that all four buffers are re-seeded from the decoded FilterSet. -/
theorem c3_counterexample :
    (addressChangeEffect sampleState []).1.maxPrice ≠ "" := by
  decide

/-- C3 (amended): on every address change the freeText, region and category
buffers are re-seeded from the new address (an absent parameter reads back as
the empty default), while the maxPrice buffer, the items, the loading flag
and the panel flag are left unchanged; and every form edit handler only
writes its buffer, requesting no navigation and no fetch. -/
theorem c3_one_way_sync (s : SearchState) (search : Params) (v : String) :
    (addressChangeEffect s search).1.searchQuery = getParamOr search "q" ∧
    (addressChangeEffect s search).1.selectedCanton = getParamOr search "canton" ∧
    (addressChangeEffect s search).1.selectedCategory =
      getParamOr search "categorie" ∧
    (addressChangeEffect s search).1.maxPrice = s.maxPrice ∧
    (addressChangeEffect s search).1.items = s.items ∧
    (addressChangeEffect s search).1.loading = s.loading ∧
    (addressChangeEffect s search).1.showFilters = s.showFilters ∧
    (onSearchQueryChange s v).2 = [] ∧ (onCantonChange s v).2 = [] ∧
    (onCategoryChange s v).2 = [] ∧ (onMaxPriceChange s v).2 = [] :=
  ⟨rfl, rfl, rfl, rfl, rfl, rfl, rfl, rfl, rfl, rfl, rfl⟩

/-- C3 evaluation: the one-way sync at a concrete state and address, showing
the canton buffer re-seeded and the free-text buffer reset to empty. -/
theorem c3_one_way_sync_witness :
    (addressChangeEffect sampleState [("canton", "Jura")]).1.selectedCanton =
      getParamOr [("canton", "Jura")] "canton" ∧
    (addressChangeEffect sampleState [("canton", "Jura")]).1.searchQuery = "" := by
  refine ⟨(c3_one_way_sync sampleState [("canton", "Jura")] "").2.1, ?_⟩
  rw [(c3_one_way_sync sampleState [("canton", "Jura")] "").1]
  decide

/-- C4: for every FilterSet, the request the Listing Fetcher builds carries
exactly the non-empty fields under the fixed names q, canton, categorie,
prix_max; no parameter ever has an empty value; and each fetch call issues
exactly one request, which carries those parameters. -/
theorem c4_request_params (fs : FilterSet) :
    fetchParams fs.toFilters = List.filter (fun p => p.2 != "")
      [("q", fs.freeText), ("canton", fs.region), ("categorie", fs.category),
       ("prix_max", fs.maxPricePerDay)] ∧
    (∀ p ∈ fetchParams fs.toFilters, p.2 ≠ "") ∧
    (∀ resp, FetchEvent.request (fetchParams fs.toFilters) ∈
        fetchTrace fs.toFilters resp) ∧
    (∀ resp, ((fetchTrace fs.toFilters resp).filter
        (fun e => match e with | FetchEvent.request _ => true | _ => false)).length = 1) := by
  refine ⟨?_, ?_, ?_, ?_⟩
  · by_cases h1 : fs.freeText = "" <;> by_cases h2 : fs.region = "" <;>
      by_cases h3 : fs.category = "" <;> by_cases h4 : fs.maxPricePerDay = "" <;>
      simp [fetchParams, FilterSet.toFilters, h1, h2, h3, h4, List.filter_cons,
        bne_iff_ne]
  · intro p hp
    simp only [fetchParams, FilterSet.toFilters, List.mem_append] at hp
    rcases hp with ((h | h) | h) | h <;> split at h <;> simp_all
  · intro resp
    cases resp <;> simp [fetchTrace]
  · intro resp
    cases resp <;> simp [fetchTrace, List.filter_cons]

/-- C5: when the backend request fails, the fetch call ends with loading
false and every other component field unchanged; in particular the items keep
their pre-call value, and the only failure-path step besides the state
changes is the log entry. -/
theorem c5_failure_preserves_items (s : SearchState) (f : Filters) (e : String) :
    runFetch s f (Except.error e) = { s with loading := false } ∧
    (runFetch s f (Except.error e)).items = s.items ∧
    FetchEvent.logError ∈ fetchTrace f (Except.error e) := by
  refine ⟨rfl, rfl, ?_⟩
  simp [fetchTrace]

/-- C6: within every single fetch call, the trace starts by setting loading
true, then issues the request, and its final step sets loading false; on both
the success and the failure path no intermediate step touches loading, so the
final clearing step is never skipped. -/
theorem c6_loading_discipline (f : Filters)
    (resp : Except String (List ItemSummary)) :
    ∃ mid, fetchTrace f resp =
        FetchEvent.setLoading true :: FetchEvent.request (fetchParams f) ::
          (mid ++ [FetchEvent.setLoading false]) ∧
      ∀ e ∈ mid, ∀ b, e ≠ FetchEvent.setLoading b := by
  cases resp with
  | ok its =>
      refine ⟨[FetchEvent.setItems its], rfl, ?_⟩
      simp
  | error msg =>
      refine ⟨[FetchEvent.logError], rfl, ?_⟩
      simp

/-- C7: the reset action of the advanced panel clears exactly the category
and max-price buffers and closes the panel; the free-text and canton buffers,
the items and the loading flag are unchanged, and no effect (no fetch, no
navigation) is requested. -/
theorem c7_reset_frame (s : SearchState) :
    (resetClick s).1.selectedCategory = "" ∧
    (resetClick s).1.maxPrice = "" ∧
    (resetClick s).1.showFilters = false ∧
    (resetClick s).1.searchQuery = s.searchQuery ∧
    (resetClick s).1.selectedCanton = s.selectedCanton ∧
    (resetClick s).1.items = s.items ∧
    (resetClick s).1.loading = s.loading ∧
    (resetClick s).2 = [] :=
  ⟨rfl, rfl, rfl, rfl, rfl, rfl, rfl, rfl⟩

/-- C8: for every item whose image list is empty, the card renders the
placeholder carrying the uppercased first character of the title, and never
an image element. -/
theorem c8_image_fallback (item : ItemSummary) (h : item.images = []) :
    renderItemImage item = ImageView.placeholder (charAt0Upper item.titre) ∧
    ∀ src alt, renderItemImage item ≠ ImageView.img src alt := by
  constructor
  · simp [renderItemImage, h]
  · intro src alt
    simp [renderItemImage, h]

/-- C8 witness: the image fallback evaluated at a concrete imageless item
whose title starts with a lowercase v. -/
theorem c8_image_fallback_witness :
    renderItemImage sampleItemNoImages = ImageView.placeholder "V" ∧
    ∀ src alt, renderItemImage sampleItemNoImages ≠ ImageView.img src alt := by
  have h := c8_image_fallback sampleItemNoImages rfl
  refine ⟨?_, h.2⟩
  rw [h.1]
  decide

/-- C9: a zero average rating renders as the unrated label, which differs
from the formatted number 0.0, and a strictly positive rating renders as the
rating formatted to one decimal place. -/
theorem c9_rating_display (r : ℚ) :
    (r = 0 → renderRating r = "Nouveau" ∧ renderRating r ≠ "0.0") ∧
    (0 < r → renderRating r = toFixed1 r) := by
  constructor
  · intro h
    subst h
    refine ⟨by simp [renderRating], ?_⟩
    simp [renderRating]
  · intro h
    simp [renderRating, h]

/-- C9 witness: the rating display evaluated at zero and at a concrete
positive rating. -/
theorem c9_rating_display_witness :
    renderRating 0 = "Nouveau" ∧ renderRating (7 / 2) = toFixed1 (7 / 2) :=
  ⟨((c9_rating_display 0).1 rfl).1, (c9_rating_display (7 / 2)).2 (by norm_num)⟩

/-- C10: for every component state and every new address, the address-change
reaction requests exactly one fetch, whose filters carry an empty prix_max;
the parameters of the resulting request are drawn only from q, canton and
categorie, and prix_max never appears, whatever the max-price buffer holds. -/
theorem c10_address_fetch_no_price (s : SearchState) (search : Params) :
    (addressChangeEffect s search).2 = [Effect.fetch (addressFilters search)] ∧
    (addressFilters search).prix_max = "" ∧
    (∀ kv ∈ fetchParams (addressFilters search),
        kv.1 = "q" ∨ kv.1 = "canton" ∨ kv.1 = "categorie") ∧
    (∀ kv ∈ fetchParams (addressFilters search), kv.1 ≠ "prix_max") := by
  refine ⟨rfl, rfl, ?_, ?_⟩ <;>
    · intro kv hkv
      simp only [fetchParams, addressFilters, List.mem_append] at hkv
      rcases hkv with ((h | h) | h) | h <;> split at h <;> simp_all
